import Mathlib

/-!
# Verification of `IPlug/IGraphics/IControls.h`

A shallow embedding of the widget classes declared in `IControls.h` of the
iPlug2 (classic iPlug) GUI widget library, together with theorems settling
the specification claims about them.

Method bodies that appear inline in the header (`IBitmapTextControl` text
handling and drawing, `IURLControl::Draw`, `IFaderControl` accessors,
constructors) are embedded directly from that source.  Method bodies that
the header only declares (the mouse handlers, most `Draw` overrides,
`IRECT::Contains`) live in files outside the provided source; where a
claim depends on them they are modelled from the specification, and each
such definition carries a doc comment starting `Modelled from the spec:`.

C++ `int` coordinates are embedded as `Int` (no overflow is at stake in
any claim), and C++ `double` values as `ℚ` (exact arithmetic; no claim
concerns floating-point rounding).
-/

namespace IControls

/-- Axis selector shared by faders and knobs (`EDirection` in the source). -/
inductive EDirection where
  | kVertical
  | kHorizontal
deriving DecidableEq, Repr

/-- Rectangle with left/top/right/bottom edges (`IRECT` in `IControl.h`). -/
structure IRECT where
  L : Int
  T : Int
  R : Int
  B : Int
deriving DecidableEq, Repr

/-- Modelled from the spec: `IRECT::Contains` is declared in `IControl.h`,
which is outside the provided source.  Per the spec's description of
hit-testing as rectangle containment, a point is contained when it lies
inside the rectangle's edges. -/
def IRECT.Contains (r : IRECT) (x y : Int) : Bool :=
  decide (r.L ≤ x ∧ x ≤ r.R ∧ r.T ≤ y ∧ y ≤ r.B)

/-- Modelled from the spec: `IControl::IsHit` is declared in `IControl.h`,
outside the provided source.  Per the spec, the default hit test is
containment of the point in the control's target rectangle. -/
def IControl.IsHit (mTargetRECT : IRECT) (x y : Int) : Bool :=
  mTargetRECT.Contains x y

/-- Geometry fields of `IFaderControl`: the fader length `mLen`, the handle
headroom `mHandleHeadroom`, the handle and track rectangles, the axis
`mDirection` and the `mOnlyHandle` flag (source lines 110-116). -/
structure IFaderControl where
  mLen : Int
  mHandleHeadroom : Int
  handleRECT : IRECT
  mTargetRECT : IRECT
  mDirection : EDirection
  mOnlyHandle : Bool
deriving DecidableEq, Repr

/-- `IFaderControl::GetHandleValueHeadroom` (source line 101):
`(double) mHandleHeadroom / (double) mLen`, with no guard on `mLen`;
the `double` division is embedded as exact division in `ℚ`. -/
def IFaderControl.GetHandleValueHeadroom (f : IFaderControl) : ℚ :=
  (f.mHandleHeadroom : ℚ) / (f.mLen : ℚ)

/-- Modelled from the spec: `IFaderControl::IsHit` is only declared in the
header (line 107).  Per the claim's reading of the spec, the override still
decides the hit by rectangle containment: against the handle rectangle when
`mOnlyHandle` is set, otherwise against the control's target (track)
rectangle. -/
def IFaderControl.IsHit (f : IFaderControl) (x y : Int) : Bool :=
  if f.mOnlyHandle then f.handleRECT.Contains x y
  else f.mTargetRECT.Contains x y

/-- State of an `IBitmapTextControl` relevant to its text handling: the
stored string `mStr` and the trace of arguments passed to the inherited
`IControl::SetDirty` call (so "`SetDirty` is not called" is expressible). -/
structure IBitmapTextControl where
  mStr : String
  dirtyCalls : List Bool
deriving DecidableEq, Repr

/-- `IBitmapTextControl::SetTextFromPlug` (source lines 305-312): when
`strcmp(mStr.Get(), str)` is non-zero (the strings differ) it calls
`SetDirty(false)` and then stores `str` into `mStr`; otherwise it does
nothing. -/
def IBitmapTextControl.SetTextFromPlug (str : String) (c : IBitmapTextControl) :
    IBitmapTextControl :=
  if c.mStr ≠ str then
    { mStr := str, dirtyCalls := c.dirtyCalls ++ [false] }
  else
    c

/-- `IBitmapTextControl::ClearTextFromPlug` (source lines 314-317): it
calls `SetTextFromPlug("")`. -/
def IBitmapTextControl.ClearTextFromPlug (c : IBitmapTextControl) :
    IBitmapTextControl :=
  IBitmapTextControl.SetTextFromPlug "" c

/-- Modelled from the spec: the body of `ISwitchControl::OnMouseDown` is
only declared in the header (line 24); per the spec, a click cycles the
control through the bitmap states, advancing to the next of the `N` frames
and wrapping after the last.  The control's value is abstracted as the
current frame index. -/
def ISwitchControl.OnMouseDown (N : ℕ) (frame : ℕ) : ℕ :=
  (frame + 1) % N

/-- Modelled from the spec: the body of `IKnobControl::OnMouseDrag` is only
declared in the header (line 128); per the spec, the drag delta component
along the axis selected by `mDirection` (`dY` for `kVertical`, `dX` for
`kHorizontal`), scaled by the gearing factor `mGearing`, is the amount by
which the value changes. -/
def IKnobControl.OnMouseDrag (mDirection : EDirection) (mGearing : ℚ)
    (value : ℚ) (dX dY : Int) : ℚ :=
  match mDirection with
  | EDirection.kVertical => value + (dY : ℚ) * mGearing
  | EDirection.kHorizontal => value + (dX : ℚ) * mGearing

/-- The drag delta component along the axis a knob's `mDirection` selects. -/
def axisComponent (mDirection : EDirection) (dX dY : Int) : Int :=
  match mDirection with
  | EDirection.kVertical => dY
  | EDirection.kHorizontal => dX

/-- The classes of the control hierarchy: the 17 widget classes declared in
`IControls.h` together with the three base classes `IControl`,
`IBitmapControl` and `ITextControl` that `IControl.h` provides. -/
inductive CtrlClass where
  | IControl
  | IBitmapControl
  | ITextControl
  | ISwitchControl
  | ISwitchPopUpControl
  | ISwitchFramesControl
  | IInvisibleSwitchControl
  | IRadioButtonsControl
  | IContactControl
  | IFaderControl
  | IKnobControl
  | IKnobLineControl
  | IKnobRotaterControl
  | IKnobMultiControl
  | IKnobRotatingMaskControl
  | IBitmapOverlayControl
  | ICaptionControl
  | IURLControl
  | IFileSelectorControl
  | IBitmapTextControl
deriving DecidableEq, Repr

/-- The direct base class of each class, read off the `class X : public Y`
declarations of `IControls.h` (lines 16, 28, 43, 56, 66, 81, 92, 120, 137,
153, 170, 187, 203, 226, 242, 257, 288).  The two edges
`IBitmapControl → IControl` and `ITextControl → IControl` are modelled from
the spec: those classes live in `IControl.h`, outside the provided source,
and the spec states that all widgets are composed from the single common
base control abstraction. -/
def baseClass : CtrlClass → Option CtrlClass
  | .IControl => none
  | .IBitmapControl => some .IControl
  | .ITextControl => some .IControl
  | .ISwitchControl => some .IBitmapControl
  | .ISwitchPopUpControl => some .ISwitchControl
  | .ISwitchFramesControl => some .ISwitchControl
  | .IInvisibleSwitchControl => some .IControl
  | .IRadioButtonsControl => some .IControl
  | .IContactControl => some .ISwitchControl
  | .IFaderControl => some .IControl
  | .IKnobControl => some .IControl
  | .IKnobLineControl => some .IKnobControl
  | .IKnobRotaterControl => some .IKnobControl
  | .IKnobMultiControl => some .IKnobControl
  | .IKnobRotatingMaskControl => some .IKnobControl
  | .IBitmapOverlayControl => some .ISwitchControl
  | .ICaptionControl => some .ITextControl
  | .IURLControl => some .IControl
  | .IFileSelectorControl => some .IControl
  | .IBitmapTextControl => some .IControl

/-- The chain of (transitive) base classes of a class, followed for at most
`fuel` steps. -/
def ancestorChain : ℕ → CtrlClass → List CtrlClass
  | 0, _ => []
  | fuel + 1, c =>
    match baseClass c with
    | none => []
    | some p => p :: ancestorChain fuel p

/-- A class derives, directly or transitively, from `IControl` (the
hierarchy is at most 20 deep, so fuel 20 is exhaustive). -/
def derivesFromIControl (c : CtrlClass) : Bool :=
  decide (CtrlClass.IControl ∈ ancestorChain 20 c)

/-- The 17 widget classes `IControls.h` declares. -/
def fileClasses : List CtrlClass :=
  [.ISwitchControl, .ISwitchPopUpControl, .ISwitchFramesControl,
   .IInvisibleSwitchControl, .IRadioButtonsControl, .IContactControl,
   .IFaderControl, .IKnobControl, .IKnobLineControl, .IKnobRotaterControl,
   .IKnobMultiControl, .IKnobRotatingMaskControl, .IBitmapOverlayControl,
   .ICaptionControl, .IURLControl, .IFileSelectorControl,
   .IBitmapTextControl]

/-- The drawing operations a control can issue on the graphics context:
drawing a bitmap frame, a rotated bitmap, monospace bitmap-font text, plain
vector text, or a line. -/
inductive DrawOp where
  | DrawBitmap (frame : ℕ)
  | DrawRotatedBitmap (frame : ℕ)
  | DrawBitmapedText (str : String)
  | DrawText (str : String)
  | DrawLine
deriving DecidableEq, Repr

/-- Whether a drawing operation draws a bitmap (`DrawBitmapedText` renders
text out of a monospace bitmap font, so it is a bitmap drawing operation). -/
def DrawOp.isBitmapOp : DrawOp → Bool
  | .DrawBitmap _ => true
  | .DrawRotatedBitmap _ => true
  | .DrawBitmapedText _ => true
  | .DrawText _ => false
  | .DrawLine => false

/-- A list of drawing operations contains at least one bitmap drawing. -/
def containsBitmapDrawOp (ops : List DrawOp) : Bool :=
  ops.any DrawOp.isBitmapOp

/-- `IURLControl::Draw` (source line 249): the body is empty, `{}` — the
control issues no drawing operation at all. -/
def IURLControl.Draw : List DrawOp := []

/-- `IBitmapTextControl::Draw` (source lines 319-325): when the stored
string is non-empty (`CSTR_NOT_EMPTY`), it calls
`graphics.DrawBitmapedText(mTextBitmap, ..., mStr.Get(), ...)`; otherwise
it draws nothing. -/
def IBitmapTextControl.Draw (c : IBitmapTextControl) : List DrawOp :=
  if c.mStr ≠ "" then [DrawOp.DrawBitmapedText c.mStr] else []

/-- Modelled from the spec: `IBitmapControl::Draw` lives in `IControl.h`,
outside the provided source; the bitmap controls (switches and their
subclasses) render the bitmap frame their value selects. -/
def IBitmapControl.Draw (frame : ℕ) : List DrawOp :=
  [DrawOp.DrawBitmap frame]

/-- Modelled from the spec: `IRadioButtonsControl::Draw` is only declared
(line 73); per the header, the control draws its 2-state bitmap for each of
its `nButtons` buttons, frame On for the selected one and Off otherwise. -/
def IRadioButtonsControl.Draw (nButtons sel : ℕ) : List DrawOp :=
  (List.range nButtons).map (fun i => DrawOp.DrawBitmap (if i = sel then 1 else 0))

/-- Modelled from the spec: `IFaderControl::Draw` is only declared
(line 106); per the header, the fader draws the bitmap for its handle. -/
def IFaderControl.Draw : List DrawOp :=
  [DrawOp.DrawBitmap 0]

/-- Modelled from the spec: `IKnobLineControl::Draw` is only declared
(line 145); per the header the control is "a knob that is just a line" (it
holds no bitmap, only a colour, radii and angles), so it draws a line. -/
def IKnobLineControl.Draw : List DrawOp :=
  [DrawOp.DrawLine]

/-- Modelled from the spec: `IKnobRotaterControl::Draw` is only declared
(line 161); per the header, the bitmap rotates with the drag, so the
control draws its bitmap rotated by the angle its value selects. -/
def IKnobRotaterControl.Draw : List DrawOp :=
  [DrawOp.DrawRotatedBitmap 0]

/-- Modelled from the spec: `IKnobMultiControl::Draw` is only declared
(line 177); the multibitmap knob draws the bitmap frame its value selects. -/
def IKnobMultiControl.Draw (frame : ℕ) : List DrawOp :=
  [DrawOp.DrawBitmap frame]

/-- Modelled from the spec: `IKnobRotatingMaskControl::Draw` is only
declared (line 195); per the header, the control draws a static base, a
rotating mask and a rotating top. -/
def IKnobRotatingMaskControl.Draw : List DrawOp :=
  [DrawOp.DrawBitmap 0, DrawOp.DrawRotatedBitmap 0, DrawOp.DrawRotatedBitmap 0]

/-- Modelled from the spec: `IBitmapOverlayControl::Draw` is only declared
(line 216); per the header, the bitmap shows in one value state and the
control hides itself in the other, drawing nothing. -/
def IBitmapOverlayControl.Draw (shown : Bool) : List DrawOp :=
  if shown then [DrawOp.DrawBitmap 0] else []

/-- Modelled from the spec: `ICaptionControl::Draw` is only declared
(line 235); per the header the caption displays the parameter's display
text (it holds no bitmap), so it draws text. -/
def ICaptionControl.Draw (displayText : String) : List DrawOp :=
  [DrawOp.DrawText displayText]

/-- Modelled from the spec: `IFileSelectorControl::Draw` is only declared
(line 276); the control draws its bitmap. -/
def IFileSelectorControl.Draw : List DrawOp :=
  [DrawOp.DrawBitmap 0]

/-- The graphics backend collaborator (`IGraphics&` in the source): one
abstract rendering primitive per drawing operation, producing results of an
arbitrary type `α`.  Its implementation lies outside the fragment. -/
structure IGraphics (α : Type) where
  drawBitmap : ℕ → α
  drawRotatedBitmap : ℕ → α
  drawBitmapedText : String → α
  drawText : String → α
  drawLine : α

/-- Interpretation of one abstract drawing operation by a backend. -/
def interpOp (g : IGraphics α) : DrawOp → α
  | .DrawBitmap f => g.drawBitmap f
  | .DrawRotatedBitmap f => g.drawRotatedBitmap f
  | .DrawBitmapedText s => g.drawBitmapedText s
  | .DrawText s => g.drawText s
  | .DrawLine => g.drawLine

/-- `IBitmapTextControl::Draw` against an explicit backend `g` (source
lines 319-325): its sole output is produced by the call
`graphics.DrawBitmapedText(...)` on the collaborator, guarded by
`CSTR_NOT_EMPTY(mStr.Get())`. -/
def IBitmapTextControl.DrawWith (g : IGraphics α) (c : IBitmapTextControl) :
    List α :=
  if c.mStr ≠ "" then [g.drawBitmapedText c.mStr] else []

/-- `IURLControl::Draw` against an explicit backend (source line 249): the
empty body touches the collaborator not at all. -/
def IURLControl.DrawWith (_ : IGraphics α) : List α := []

/-- `IFileSelectorControl::EFileSelectorState` (source line 260). -/
inductive EFileSelectorState where
  | kFSNone
  | kFSSelecting
  | kFSDone
deriving DecidableEq, Repr

/-- The mutable state a mouse-event handler can reach: the control's bound
parameter value, its dirty flag, and the remaining per-control state the
header declares — `IFileSelectorControl`'s stored file name `mFile` and
selector state `mState` (source lines 281-283). -/
structure ControlState where
  value : ℚ
  dirty : Bool
  mFile : String
  mState : EFileSelectorState
deriving DecidableEq, Repr

/-- A handler affects only the bound parameter value and the dirty flag:
all other control state is preserved. -/
def OnlyValueAndDirty (h : ControlState → ControlState) : Prop :=
  ∀ s, (h s).mFile = s.mFile ∧ (h s).mState = s.mState

namespace Frame

/-- Modelled from the spec: `ISwitchControl::OnMouseDown` (declared line
24) cycles the value through the `N` bitmap states, wrapping after the
last, and marks the control dirty. -/
def switchOnMouseDown (N : ℕ) (s : ControlState) : ControlState :=
  { s with value := if s.value + 1 < (N : ℚ) then s.value + 1 else 0,
           dirty := true }

/-- Modelled from the spec: `ISwitchControl::OnMouseDblClick` (declared
line 23) prompts the user for input, setting the value to the entry. -/
def switchOnMouseDblClick (input : ℚ) (s : ControlState) : ControlState :=
  { s with value := input, dirty := true }

/-- Modelled from the spec: `ISwitchPopUpControl::OnMouseDown` (declared
line 39) puts up a popup menu instead of cycling; the selection becomes the
value. -/
def switchPopUpOnMouseDown (sel : ℚ) (s : ControlState) : ControlState :=
  { s with value := sel, dirty := true }

/-- Modelled from the spec: `ISwitchFramesControl::OnMouseDown` (declared
line 49) sets the value to the state of the clicked sub-area of `mRECT`. -/
def switchFramesOnMouseDown (hitIdx : ℚ) (s : ControlState) : ControlState :=
  { s with value := hitIdx, dirty := true }

/-- Modelled from the spec: `IInvisibleSwitchControl::OnMouseDown`
(declared line 62) toggles the on/off value. -/
def invisibleSwitchOnMouseDown (s : ControlState) : ControlState :=
  { s with value := if s.value = 0 then 1 else 0, dirty := true }

/-- Modelled from the spec: `IRadioButtonsControl::OnMouseDown` (declared
line 72) maps the clicked button to the single selection value. -/
def radioButtonsOnMouseDown (btn : ℚ) (s : ControlState) : ControlState :=
  { s with value := btn, dirty := true }

/-- Modelled from the spec: `IContactControl::OnMouseUp` (declared line 88)
reverts the value to 0.0 when the mouse is released. -/
def contactOnMouseUp (s : ControlState) : ControlState :=
  { s with value := 0, dirty := true }

/-- Modelled from the spec: `IFaderControl::SnapToMouse` (declared line
111) snaps the value to the mouse position along `mDirection`, relative to
the track start and proportional to the fader length. -/
def faderSnapToMouse (dir : EDirection) (trackStart len : Int) (x y : Int)
    (s : ControlState) : ControlState :=
  { s with value := match dir with
      | EDirection.kVertical => 1 - ((y - trackStart : ℤ) : ℚ) / (len : ℚ)
      | EDirection.kHorizontal => ((x - trackStart : ℤ) : ℚ) / (len : ℚ),
           dirty := true }

/-- Modelled from the spec: `IFaderControl::OnMouseDown` (declared line
103) snaps the handle to the click. -/
def faderOnMouseDown (dir : EDirection) (trackStart len : Int) (x y : Int)
    (s : ControlState) : ControlState :=
  faderSnapToMouse dir trackStart len x y s

/-- Modelled from the spec: `IFaderControl::OnMouseDrag` (declared line
104) snaps the handle to the drag position. -/
def faderOnMouseDrag (dir : EDirection) (trackStart len : Int) (x y : Int)
    (s : ControlState) : ControlState :=
  faderSnapToMouse dir trackStart len x y s

/-- Modelled from the spec: `IFaderControl::OnMouseWheel` (declared line
105) adjusts the value by the wheel delta. -/
def faderOnMouseWheel (d : Int) (s : ControlState) : ControlState :=
  { s with value := s.value + (d : ℚ), dirty := true }

/-- Modelled from the spec: `IKnobControl::OnMouseDrag` (declared line 128)
changes the value by the drag delta component along `mDirection` scaled by
`mGearing`. -/
def knobOnMouseDrag (dir : EDirection) (gearing : ℚ) (dX dY : Int)
    (s : ControlState) : ControlState :=
  { s with value := IKnobControl.OnMouseDrag dir gearing s.value dX dY,
           dirty := true }

/-- Modelled from the spec: `IKnobControl::OnMouseWheel` (declared line
129) adjusts the value by the wheel delta. -/
def knobOnMouseWheel (d : Int) (s : ControlState) : ControlState :=
  { s with value := s.value + (d : ℚ), dirty := true }

/-- Modelled from the spec: `ICaptionControl::OnMouseDown` (declared line
232) prompts the user, the entry becoming the parameter value. -/
def captionOnMouseDown (input : ℚ) (s : ControlState) : ControlState :=
  { s with value := input, dirty := true }

/-- Modelled from the spec: `ICaptionControl::OnMouseDblClick` (declared
line 233) prompts the user, the entry becoming the parameter value. -/
def captionOnMouseDblClick (input : ℚ) (s : ControlState) : ControlState :=
  { s with value := input, dirty := true }

/-- Modelled from the spec: `IURLControl::OnMouseDown` (declared line 248)
opens the stored URL through the GUI collaborator; the control's state does
not change. -/
def urlOnMouseDown (s : ControlState) : ControlState := s

/-- Modelled from the spec: `IFileSelectorControl::OnMouseDown` (declared
line 271) runs the file selection: the selected file is stored in `mFile`
(from where `GetLastSelectedFileForPlug` reads it, line 273), the selector
state `mState` advances to `kFSDone` (line 283), the value is bumped and
the control marked dirty. -/
def fileSelectorOnMouseDown (selectedFile : String) (s : ControlState) :
    ControlState :=
  { value := if s.value + 1 ≤ 1 then s.value + 1 else 0,
    dirty := true,
    mFile := selectedFile,
    mState := EFileSelectorState.kFSDone }

end Frame

end IControls

namespace IControls

/-- For a switch over `N ≥ 1` frames, `k` clicks from frame `f < N` land on
frame `(f + k) % N`. -/
lemma switch_iterate_onMouseDown (N : ℕ) (hN : 1 ≤ N) :
    ∀ (k f : ℕ), f < N →
      (ISwitchControl.OnMouseDown N)^[k] f = (f + k) % N := by
  intro k
  induction k with
  | zero =>
    intro f hf
    simpa using (Nat.mod_eq_of_lt hf).symm
  | succ k ih =>
    intro f hf
    rw [Function.iterate_succ_apply]
    have h1 : ISwitchControl.OnMouseDown N f = (f + 1) % N := rfl
    have h2 : (f + 1) % N < N := Nat.mod_lt _ (Nat.lt_of_lt_of_le Nat.zero_lt_one hN)
    rw [h1, ih _ h2, Nat.mod_add_mod]
    congr 1
    omega

/-- C1: for a switch whose bitmap has `N ≥ 1` frames, each `OnMouseDown`
advances the control to the next bitmap state, wrapping after the last, so
`N` successive clicks return the control to its starting state. -/
theorem switch_n_clicks_return_to_start :
    ∀ (N frame : ℕ), 1 ≤ N → frame < N →
      (ISwitchControl.OnMouseDown N)^[N] frame = frame := by
  intro N frame hN hf
  rw [switch_iterate_onMouseDown N hN N frame hf, Nat.add_mod_right]
  exact Nat.mod_eq_of_lt hf

/-- Witness for C1: three clicks on a 3-frame switch starting at frame 2
return it to frame 2. -/
theorem switch_n_clicks_return_to_start_witness :
    1 ≤ 3 ∧ 2 < 3 ∧ (ISwitchControl.OnMouseDown 3)^[3] 2 = 2 :=
  ⟨by decide, by decide,
   switch_n_clicks_return_to_start 3 2 (by decide) (by decide)⟩

/-- C2: `IKnobControl::OnMouseDrag` changes the value by exactly the drag
delta component along the axis selected by `mDirection` (`dY` when
`kVertical`, `dX` when `kHorizontal`) scaled by the gearing factor: the
value change is a function of that component and `mGearing` alone. -/
theorem knob_onMouseDrag_value_change :
    ∀ (mDirection : EDirection) (mGearing value : ℚ) (dX dY : Int),
      IKnobControl.OnMouseDrag mDirection mGearing value dX dY - value =
        (axisComponent mDirection dX dY : ℚ) * mGearing := by
  intro mDirection mGearing value dX dY
  cases mDirection <;>
    simp [IKnobControl.OnMouseDrag, axisComponent]

/-- C4: hit-testing is rectangle containment.  The default `IsHit` returns
`true` exactly when the point lies inside the target rectangle, and the
`IFaderControl` override still decides the hit by rectangle containment
against its handle rectangle (when `mOnlyHandle`) or its track/target
rectangle (otherwise). -/
theorem isHit_iff_rect_containment :
    ∀ (rect : IRECT) (f : IFaderControl) (x y : Int),
      (IControl.IsHit rect x y = true ↔
        rect.L ≤ x ∧ x ≤ rect.R ∧ rect.T ≤ y ∧ y ≤ rect.B) ∧
      (f.IsHit x y = true ↔
        ((f.mOnlyHandle = true ∧ f.handleRECT.Contains x y = true) ∨
         (f.mOnlyHandle = false ∧ f.mTargetRECT.Contains x y = true))) := by
  intro rect f x y
  constructor
  · simp [IControl.IsHit, IRECT.Contains]
  · cases h : f.mOnlyHandle <;> simp [IFaderControl.IsHit, h]

/-- C8: `SetTextFromPlug s` leaves the state untouched when the stored text
already equals `s`, and otherwise calls `SetDirty(false)` once and replaces
the stored text with `s`; in both cases the stored text afterwards is `s`. -/
theorem setTextFromPlug_spec :
    ∀ (c : IBitmapTextControl) (s : String),
      (IBitmapTextControl.SetTextFromPlug s c =
        if c.mStr = s then c
        else { mStr := s, dirtyCalls := c.dirtyCalls ++ [false] }) ∧
      (IBitmapTextControl.SetTextFromPlug s c).mStr = s := by
  intro c s
  by_cases h : c.mStr = s
  · subst h
    simp [IBitmapTextControl.SetTextFromPlug]
  · simp [IBitmapTextControl.SetTextFromPlug, h]

/-- C9: `ClearTextFromPlug` performs exactly the state transition of
`SetTextFromPlug("")`, and in particular changes nothing when the stored
text is already empty. -/
theorem clearTextFromPlug_spec :
    ∀ c : IBitmapTextControl,
      c.ClearTextFromPlug = IBitmapTextControl.SetTextFromPlug "" c ∧
      (c.mStr = "" → c.ClearTextFromPlug = c) := by
  intro c
  refine ⟨rfl, fun h => ?_⟩
  simp [IBitmapTextControl.ClearTextFromPlug, IBitmapTextControl.SetTextFromPlug, h]

/-- C10: `GetHandleValueHeadroom` divides `mHandleHeadroom` by `mLen` with
no guard; whenever `mLen ≠ 0` the result is the exact ratio of the handle
headroom to the fader length (characterised by clearing the denominator). -/
theorem getHandleValueHeadroom_ratio :
    ∀ f : IFaderControl, f.mLen ≠ 0 →
      f.GetHandleValueHeadroom * (f.mLen : ℚ) = (f.mHandleHeadroom : ℚ) := by
  intro f h
  have hq : (f.mLen : ℚ) ≠ 0 := Int.cast_ne_zero.mpr h
  rw [IFaderControl.GetHandleValueHeadroom, div_mul_cancel₀ _ hq]

/-- C6: the file declares widget classes for knobs, sliders (faders),
switches, radio buttons, captions, URL links and bitmap text renderers, and
every class it declares derives, directly or transitively, from the single
common base class `IControl`. -/
theorem widget_classes_derive_from_IControl :
    (CtrlClass.IKnobControl ∈ fileClasses ∧
     CtrlClass.IFaderControl ∈ fileClasses ∧
     CtrlClass.ISwitchControl ∈ fileClasses ∧
     CtrlClass.IRadioButtonsControl ∈ fileClasses ∧
     CtrlClass.ICaptionControl ∈ fileClasses ∧
     CtrlClass.IURLControl ∈ fileClasses ∧
     CtrlClass.IBitmapTextControl ∈ fileClasses) ∧
    ∀ c ∈ fileClasses, derivesFromIControl c = true := by
  decide

/-- C5 counterexample: not every widget's `Draw` issues a bitmap drawing
operation.  `IURLControl::Draw` has an empty body (source line 249) and
issues none; `IBitmapTextControl::Draw` with an empty stored string issues
none (source lines 319-325); nor do the modelled `IKnobLineControl` (a
line), `ICaptionControl` (text) and a hidden `IBitmapOverlayControl`. -/
theorem draw_not_always_bitmap_counterexample :
    IURLControl.Draw = [] ∧
    IBitmapTextControl.Draw ⟨"", []⟩ = [] ∧
    containsBitmapDrawOp IKnobLineControl.Draw = false ∧
    containsBitmapDrawOp (ICaptionControl.Draw "0.0 dB") = false ∧
    IBitmapOverlayControl.Draw false = [] := by
  decide

/-- C5 amended: every bitmap-holding widget class's `Draw` issues at least
one bitmap drawing operation — the bitmap switches, radio buttons (when
there is at least one button), faders, rotating/multibitmap/mask knobs, the
file selector, the overlay when shown, and the bitmap text control when its
stored string is non-empty. -/
theorem bitmap_widgets_draw_bitmap :
    ∀ (frame nButtons sel : ℕ) (c : IBitmapTextControl) (shown : Bool),
      1 ≤ nButtons →
      containsBitmapDrawOp (IBitmapControl.Draw frame) = true ∧
      containsBitmapDrawOp (IRadioButtonsControl.Draw nButtons sel) = true ∧
      containsBitmapDrawOp IFaderControl.Draw = true ∧
      containsBitmapDrawOp IKnobRotaterControl.Draw = true ∧
      containsBitmapDrawOp (IKnobMultiControl.Draw frame) = true ∧
      containsBitmapDrawOp IKnobRotatingMaskControl.Draw = true ∧
      containsBitmapDrawOp IFileSelectorControl.Draw = true ∧
      (shown = true →
        containsBitmapDrawOp (IBitmapOverlayControl.Draw shown) = true) ∧
      (c.mStr ≠ "" →
        containsBitmapDrawOp (IBitmapTextControl.Draw c) = true) := by
  intro frame nButtons sel c shown hn
  obtain ⟨m, rfl⟩ : ∃ m, nButtons = m + 1 := ⟨nButtons - 1, by omega⟩
  refine ⟨by simp [IBitmapControl.Draw, containsBitmapDrawOp, DrawOp.isBitmapOp],
    ?_, by decide, by decide,
    by simp [IKnobMultiControl.Draw, containsBitmapDrawOp, DrawOp.isBitmapOp],
    by decide, by decide, ?_, ?_⟩
  · simp [IRadioButtonsControl.Draw, containsBitmapDrawOp, List.range_succ,
      DrawOp.isBitmapOp]
  · intro h
    simp [IBitmapOverlayControl.Draw, containsBitmapDrawOp, h,
      DrawOp.isBitmapOp]
  · intro h
    simp [IBitmapTextControl.Draw, containsBitmapDrawOp, h,
      DrawOp.isBitmapOp]

/-- Witness for the amended C5 at a 2-button radio control, a shown
overlay, and a bitmap text control holding `"hi"`. -/
theorem bitmap_widgets_draw_bitmap_witness :
    1 ≤ 2 ∧
    (containsBitmapDrawOp (IBitmapControl.Draw 0) = true ∧
     containsBitmapDrawOp (IRadioButtonsControl.Draw 2 0) = true ∧
     containsBitmapDrawOp IFaderControl.Draw = true ∧
     containsBitmapDrawOp IKnobRotaterControl.Draw = true ∧
     containsBitmapDrawOp (IKnobMultiControl.Draw 0) = true ∧
     containsBitmapDrawOp IKnobRotatingMaskControl.Draw = true ∧
     containsBitmapDrawOp IFileSelectorControl.Draw = true ∧
     (true = true →
       containsBitmapDrawOp (IBitmapOverlayControl.Draw true) = true) ∧
     ((⟨"hi", []⟩ : IBitmapTextControl).mStr ≠ "" →
       containsBitmapDrawOp (IBitmapTextControl.Draw ⟨"hi", []⟩) = true)) :=
  ⟨by decide, bitmap_widgets_draw_bitmap 0 2 0 ⟨"hi", []⟩ true (by decide)⟩

/-- C7: the fragment implements no graphics backend or parameter model of
its own.  Each in-source `Draw` body factors through the abstract
collaborator interface: against any backend `g` of any result type, its
output is exactly the control's abstract drawing-operation list interpreted
by `g`'s primitives; and `SetTextFromPlug` touches the plug side only by
appending calls to the inherited `SetDirty` collaborator. -/
theorem operations_factor_through_collaborators :
    ∀ (α : Type) (g : IGraphics α) (c : IBitmapTextControl) (s : String),
      IBitmapTextControl.DrawWith g c =
        (IBitmapTextControl.Draw c).map (interpOp g) ∧
      IURLControl.DrawWith g = IURLControl.Draw.map (interpOp g) ∧
      ∃ t, (IBitmapTextControl.SetTextFromPlug s c).dirtyCalls =
        c.dirtyCalls ++ t := by
  intro α g c s
  refine ⟨?_, rfl, ?_⟩
  · by_cases h : c.mStr = "" <;>
      simp [IBitmapTextControl.DrawWith, IBitmapTextControl.Draw, h, interpOp]
  · by_cases h : c.mStr = s
    · exact ⟨[], by simp [IBitmapTextControl.SetTextFromPlug, h]⟩
    · exact ⟨[false], by simp [IBitmapTextControl.SetTextFromPlug, h]⟩

/-- C3 counterexample: `IFileSelectorControl::OnMouseDown` refutes the
claim that every mouse-event handler touches only the bound parameter value
and the dirty flag — handling the click stores the selected file into
`mFile` and advances `mState`, as witnessed at the concrete state
`⟨0, false, "", kFSNone⟩` with selection `"sample.wav"`. -/
theorem mouse_handler_changes_more_than_value_counterexample :
    ¬ OnlyValueAndDirty (Frame.fileSelectorOnMouseDown "sample.wav") := by
  intro h
  have h2 := (h ⟨0, false, "", EFileSelectorState.kFSNone⟩).2
  simp [Frame.fileSelectorOnMouseDown] at h2

/-- C3 amended: every mouse-event handler declared by the widget classes
affects only the bound parameter value and the dirty flag, except
`IFileSelectorControl::OnMouseDown`, which additionally stores the selected
file in `mFile` and advances `mState` to `kFSDone`. -/
theorem mouse_handlers_only_value_and_dirty :
    ∀ (N : ℕ) (input sel hitIdx btn gearing : ℚ) (dir : EDirection)
      (trackStart len x y dX dY d : Int) (f : String),
      OnlyValueAndDirty (Frame.switchOnMouseDown N) ∧
      OnlyValueAndDirty (Frame.switchOnMouseDblClick input) ∧
      OnlyValueAndDirty (Frame.switchPopUpOnMouseDown sel) ∧
      OnlyValueAndDirty (Frame.switchFramesOnMouseDown hitIdx) ∧
      OnlyValueAndDirty Frame.invisibleSwitchOnMouseDown ∧
      OnlyValueAndDirty (Frame.radioButtonsOnMouseDown btn) ∧
      OnlyValueAndDirty Frame.contactOnMouseUp ∧
      OnlyValueAndDirty (Frame.faderOnMouseDown dir trackStart len x y) ∧
      OnlyValueAndDirty (Frame.faderOnMouseDrag dir trackStart len x y) ∧
      OnlyValueAndDirty (Frame.faderOnMouseWheel d) ∧
      OnlyValueAndDirty (Frame.knobOnMouseDrag dir gearing dX dY) ∧
      OnlyValueAndDirty (Frame.knobOnMouseWheel d) ∧
      OnlyValueAndDirty (Frame.captionOnMouseDown input) ∧
      OnlyValueAndDirty (Frame.captionOnMouseDblClick input) ∧
      OnlyValueAndDirty Frame.urlOnMouseDown ∧
      (∀ s, (Frame.fileSelectorOnMouseDown f s).mFile = f ∧
        (Frame.fileSelectorOnMouseDown f s).mState =
          EFileSelectorState.kFSDone) := by
  intro N input sel hitIdx btn gearing dir trackStart len x y dX dY d f
  refine ⟨?_, ?_, ?_, ?_, ?_, ?_, ?_, ?_, ?_, ?_, ?_, ?_, ?_, ?_, ?_, ?_⟩ <;>
    intro s <;>
    simp [OnlyValueAndDirty, Frame.switchOnMouseDown,
      Frame.switchOnMouseDblClick, Frame.switchPopUpOnMouseDown,
      Frame.switchFramesOnMouseDown, Frame.invisibleSwitchOnMouseDown,
      Frame.radioButtonsOnMouseDown, Frame.contactOnMouseUp,
      Frame.faderOnMouseDown, Frame.faderOnMouseDrag, Frame.faderSnapToMouse,
      Frame.faderOnMouseWheel, Frame.knobOnMouseDrag, Frame.knobOnMouseWheel,
      Frame.captionOnMouseDown, Frame.captionOnMouseDblClick,
      Frame.urlOnMouseDown, Frame.fileSelectorOnMouseDown]

/-- Witness for C10 at a concrete fader of length 100 and headroom 10. -/
theorem getHandleValueHeadroom_ratio_witness :
    (100 : Int) ≠ 0 ∧
      (IFaderControl.GetHandleValueHeadroom
        ⟨100, 10, ⟨0, 0, 1, 1⟩, ⟨0, 0, 1, 1⟩, EDirection.kVertical, false⟩) *
        ((100 : Int) : ℚ) = ((10 : Int) : ℚ) :=
  ⟨by decide,
   getHandleValueHeadroom_ratio
     ⟨100, 10, ⟨0, 0, 1, 1⟩, ⟨0, 0, 1, 1⟩, EDirection.kVertical, false⟩
     (by decide)⟩

end IControls
